import Mathlib

/-!
Shallow embedding of the `mydb` burn-unit records application frontend
(Vue/Pinia stores, axios service layer, analysis dashboard components),
together with verification of the specification's claims about it.

JavaScript runtime values that flow through the dynamically-typed parts of
the code (normalizers taking `unknown`, HTTP response bodies) are embedded
as the inductive `JSVal`; JavaScript numbers are embedded as `ℚ`.
-/

/-- A JavaScript runtime value as seen by the frontend code: strings,
numbers (embedded as `ℚ`), booleans, `null`, `undefined`, and a single
constructor standing for any other value (objects, arrays, ...), which the
code under study never inspects beyond its `typeof`. -/
inductive JSVal where
  | str (s : String)
  | num (q : ℚ)
  | bool (b : Bool)
  | null
  | undefined
  | other
  deriving DecidableEq, Repr

/-! ## `dashboardService.getStatistics` (services/api.ts)

The service issues one GET per table and returns the length of each
response array.  The backend is embedded as a function from endpoint path
to the JSON array it answers with. -/

/-- The `DatabaseStatistics` interface of `services/api.ts`. -/
structure DatabaseStatistics where
  doentes : ℕ
  internamentos : ℕ
  agentesInfecciosos : ℕ
  tiposAcidente : ℕ
  agentesQueimadura : ℕ
  mecanismosQueimadura : ℕ
  origensDestino : ℕ
  deriving DecidableEq, Repr

namespace dashboardService

/-- Function `dashboardService.getStatistics`: seven parallel GETs, one per table,
each field set to the `.length` of the corresponding response array.
`fetch` embeds the backend: the JSON array each GET endpoint returns. -/
def getStatistics (fetch : String → List JSVal) : DatabaseStatistics :=
  let doentesResponse := fetch "/doentes"
  let internamentosResponse := fetch "/internamentos"
  let agentesResponse := fetch "/agentes_infecciosos"
  let tiposAcidenteResponse := fetch "/tipos_acidente"
  let agentesQueimaduraResponse := fetch "/agentes_queimadura"
  let mecanismosQueimaduraResponse := fetch "/mecanismos_queimadura"
  let origensDestinoResponse := fetch "/origens_destino"
  { doentes := doentesResponse.length
    internamentos := internamentosResponse.length
    agentesInfecciosos := agentesResponse.length
    tiposAcidente := tiposAcidenteResponse.length
    agentesQueimadura := agentesQueimaduraResponse.length
    mecanismosQueimadura := mecanismosQueimaduraResponse.length
    origensDestino := origensDestinoResponse.length }

end dashboardService

/-! ## `getASCQSeverity` (InternamentosView) -/

/-- Function `getASCQSeverity` from the internamentos view: tags an ASCQ burn-area
score for badge display. -/
def getASCQSeverity (score : ℚ) : String :=
  if score ≥ 75 then "danger"
  else if score ≥ 50 then "warning"
  else if score ≥ 25 then "info"
  else "success"

/-! ## Data-quality selectors (DataQualityAnalysis.vue) -/

/-- One entry of `qualityIssues` in `DataQualityAnalysis.vue`: a column of
the dataset together with its missing-data percentage and count. -/
structure QualityIssue where
  column : String
  percentage : ℚ
  count : ℚ
  deriving DecidableEq, Repr

/-- Selector `getCriticalIssues`: columns with more than 60% missing data. -/
def getCriticalIssues (qualityIssues : List QualityIssue) : List QualityIssue :=
  qualityIssues.filter (fun issue => issue.percentage > 60)

/-- Selector `getWarningIssues`: columns with 30% < missing ≤ 60%. -/
def getWarningIssues (qualityIssues : List QualityIssue) : List QualityIssue :=
  qualityIssues.filter (fun issue => issue.percentage > 30 && issue.percentage ≤ 60)

/-- Selector `getMinorIssues`: columns with 10% < missing ≤ 30%. -/
def getMinorIssues (qualityIssues : List QualityIssue) : List QualityIssue :=
  qualityIssues.filter (fun issue => issue.percentage > 10 && issue.percentage ≤ 30)

/-- Selector `getGoodQuality`: columns with at most 10% missing data. -/
def getGoodQuality (qualityIssues : List QualityIssue) : List QualityIssue :=
  qualityIssues.filter (fun issue => issue.percentage ≤ 10)

/-! ## The `agenteInfeccioso` Pinia store (stores/agenteInfeccioso.ts)

Each store action awaits one service call and then updates the reactive
state.  The embedding passes the state explicitly and parameterises over
the server's response (`Except ε`), covering both the resolved and the
rejected promise.  The `loading.value = true` / `error.value = null` writes
at the head of each action, the `finally { loading.value = false }`, and
the `catch` branch are all reflected in the state transition. -/

/-- The `AgenteInfeccioso` interface of `services/api.ts`. -/
structure AgenteInfeccioso where
  id : ℤ
  nome : String
  tipo_agente : String
  codigo_snomedct : Option String := none
  subtipo_agent : Option String := none
  deriving DecidableEq, Repr

/-- The reactive state of the `agenteInfeccioso` store: `agentes`,
`loading`, `error`. -/
structure AgenteStoreState where
  agentes : List AgenteInfeccioso
  loading : Bool
  error : Option String
  deriving DecidableEq, Repr

namespace agenteInfecciosoStore

/-- The `totalAgentes` computed getter: `agentes.value.length`. -/
def totalAgentes (s : AgenteStoreState) : ℕ := s.agentes.length

/-- The `createAgente` action.  On success the server-returned agent is
pushed onto `agentes` and returned; on failure `error` is set and the
exception is re-thrown (the `Except.error` result); `loading` ends `false`
either way via the `finally` block. -/
def createAgente {ε : Type} (s : AgenteStoreState)
    (serverResponse : Except ε AgenteInfeccioso) :
    AgenteStoreState × Except ε AgenteInfeccioso :=
  let s := { s with loading := true, error := none }
  match serverResponse with
  | .ok newAgente =>
      ({ s with
          agentes := s.agentes ++ [newAgente]
          loading := false },
        .ok newAgente)
  | .error err =>
      ({ s with
          error := some "Failed to create infectious agent"
          loading := false },
        .error err)

/-- The `updateAgente` action.  On success, `findIndex` locates the first
entry with the given id and, when the index is not -1 (embedded:
`findIdx?` returns `some`), that slot is overwritten with the
server-returned agent. -/
def updateAgente {ε : Type} (s : AgenteStoreState) (id : ℤ)
    (serverResponse : Except ε AgenteInfeccioso) :
    AgenteStoreState × Except ε AgenteInfeccioso :=
  let s := { s with loading := true, error := none }
  match serverResponse with
  | .ok updatedAgente =>
      let agentes' :=
        match s.agentes.findIdx? (fun a => a.id == id) with
        | some index => s.agentes.set index updatedAgente
        | none => s.agentes
      ({ s with agentes := agentes', loading := false }, .ok updatedAgente)
  | .error err =>
      ({ s with
          error := some "Failed to update infectious agent"
          loading := false },
        .error err)

/-- The `deleteAgente` action.  On success the list is replaced by
`agentes.value.filter(a => a.id !== id)`. -/
def deleteAgente {ε : Type} (s : AgenteStoreState) (id : ℤ)
    (serverResponse : Except ε Unit) :
    AgenteStoreState × Except ε Unit :=
  let s := { s with loading := true, error := none }
  match serverResponse with
  | .ok _ =>
      ({ s with
          agentes := s.agentes.filter (fun a => a.id != id)
          loading := false },
        .ok ())
  | .error err =>
      ({ s with
          error := some "Failed to delete infectious agent"
          loading := false },
        .error err)

end agenteInfecciosoStore

/-! ## Theorems -/

/-- Counting elements in a filtered list: an element failing the predicate
is never counted. -/
lemma count_filter_of_not {α : Type} [DecidableEq α] (p : α → Bool) (l : List α) (a : α)
    (h : p a = false) : (l.filter p).count a = 0 :=
  List.count_eq_zero.mpr fun hm => by
    have := (List.mem_filter.mp hm).2
    rw [h] at this
    exact Bool.false_ne_true this

/-- Claim C2: `dashboardService.getStatistics` returns, for each of the seven
tables it covers, exactly the number of records (the length of the response
array) of that table's GET collection endpoint, for every combination of
backend responses. -/
theorem getStatistics_counts (fetch : String → List JSVal) :
    (dashboardService.getStatistics fetch).doentes = (fetch "/doentes").length ∧
    (dashboardService.getStatistics fetch).internamentos = (fetch "/internamentos").length ∧
    (dashboardService.getStatistics fetch).agentesInfecciosos = (fetch "/agentes_infecciosos").length ∧
    (dashboardService.getStatistics fetch).tiposAcidente = (fetch "/tipos_acidente").length ∧
    (dashboardService.getStatistics fetch).agentesQueimadura = (fetch "/agentes_queimadura").length ∧
    (dashboardService.getStatistics fetch).mecanismosQueimadura = (fetch "/mecanismos_queimadura").length ∧
    (dashboardService.getStatistics fetch).origensDestino = (fetch "/origens_destino").length := by
  refine ⟨rfl, rfl, rfl, rfl, rfl, rfl, rfl⟩

/-- Claim C9: `getASCQSeverity` is total and classifies every score into
exactly one of the four tags, with `danger` iff score ≥ 75, `warning` iff
50 ≤ score < 75, `info` iff 25 ≤ score < 50 and `success` iff score < 25. -/
theorem getASCQSeverity_partition (score : ℚ) :
    (getASCQSeverity score = "danger" ↔ 75 ≤ score) ∧
    (getASCQSeverity score = "warning" ↔ 50 ≤ score ∧ score < 75) ∧
    (getASCQSeverity score = "info" ↔ 25 ≤ score ∧ score < 50) ∧
    (getASCQSeverity score = "success" ↔ score < 25) := by
  unfold getASCQSeverity
  split_ifs with h75 h50 h25 <;>
    refine ⟨?_, ?_, ?_, ?_⟩ <;>
    simp_all <;> first
      | omega
      | (intro h; linarith)
      | (constructor <;> intro h <;> linarith)
      | linarith

/-- Claim C10: The four data-quality selectors partition `qualityIssues`:
their results are pairwise disjoint, and their concatenation contains every
issue of the list exactly once (same multiplicity as in the input). -/
theorem qualityIssues_partition (l : List QualityIssue) (issue : QualityIssue) :
    (issue ∈ getCriticalIssues l → issue ∉ getWarningIssues l) ∧
    (issue ∈ getCriticalIssues l → issue ∉ getMinorIssues l) ∧
    (issue ∈ getCriticalIssues l → issue ∉ getGoodQuality l) ∧
    (issue ∈ getWarningIssues l → issue ∉ getMinorIssues l) ∧
    (issue ∈ getWarningIssues l → issue ∉ getGoodQuality l) ∧
    (issue ∈ getMinorIssues l → issue ∉ getGoodQuality l) ∧
    (getCriticalIssues l ++ getWarningIssues l ++ getMinorIssues l ++
      getGoodQuality l).count issue = l.count issue := by
  unfold getCriticalIssues getWarningIssues getMinorIssues getGoodQuality
  refine ⟨?_, ?_, ?_, ?_, ?_, ?_, ?_⟩
  · intro h1 h2
    have p1 := (List.mem_filter.mp h1).2
    have p2 := (List.mem_filter.mp h2).2
    simp only [decide_eq_true_eq, Bool.and_eq_true] at p1 p2
    linarith [p1, p2.2]
  · intro h1 h2
    have p1 := (List.mem_filter.mp h1).2
    have p2 := (List.mem_filter.mp h2).2
    simp only [decide_eq_true_eq, Bool.and_eq_true] at p1 p2
    linarith [p1, p2.2]
  · intro h1 h2
    have p1 := (List.mem_filter.mp h1).2
    have p2 := (List.mem_filter.mp h2).2
    simp only [decide_eq_true_eq, Bool.and_eq_true] at p1 p2
    linarith [p1, p2]
  · intro h1 h2
    have p1 := (List.mem_filter.mp h1).2
    have p2 := (List.mem_filter.mp h2).2
    simp only [decide_eq_true_eq, Bool.and_eq_true] at p1 p2
    linarith [p1.1, p2.2]
  · intro h1 h2
    have p1 := (List.mem_filter.mp h1).2
    have p2 := (List.mem_filter.mp h2).2
    simp only [decide_eq_true_eq, Bool.and_eq_true] at p1 p2
    linarith [p1.1, p2]
  · intro h1 h2
    have p1 := (List.mem_filter.mp h1).2
    have p2 := (List.mem_filter.mp h2).2
    simp only [decide_eq_true_eq, Bool.and_eq_true] at p1 p2
    linarith [p1.1, p2]
  · rw [List.count_append, List.count_append, List.count_append]
    by_cases h60 : issue.percentage > 60
    · rw [List.count_filter (by simp [h60]),
        count_filter_of_not _ _ _ (by simp; intro h; linarith),
        count_filter_of_not _ _ _ (by simp; intro h; linarith),
        count_filter_of_not _ _ _ (by simp; linarith)]
      omega
    · by_cases h30 : issue.percentage > 30
      · rw [count_filter_of_not _ _ _ (by simp [h60]),
          List.count_filter (by simp [h30]; linarith),
          count_filter_of_not _ _ _ (by simp; intro h; linarith),
          count_filter_of_not _ _ _ (by simp; linarith)]
        omega
      · by_cases h10 : issue.percentage > 10
        · rw [count_filter_of_not _ _ _ (by simp [h60]),
            count_filter_of_not _ _ _ (by simp; intro h; linarith),
            List.count_filter (by simp [h10]; linarith),
            count_filter_of_not _ _ _ (by simp; linarith)]
          omega
        · rw [count_filter_of_not _ _ _ (by simp [h60]),
            count_filter_of_not _ _ _ (by simp; intro h; linarith),
            count_filter_of_not _ _ _ (by simp; intro h; linarith),
            List.count_filter (by simp; linarith)]
          omega


/-- Helper: `findIdx?` yields `none` when no element satisfies the predicate
(generalised over the running start index). -/
lemma findIdx?_eq_none_of_all {α : Type} (p : α → Bool) (l : List α)
    (h : ∀ x ∈ l, p x = false) : ∀ i, l.findIdx? p i = none := by
  induction l with
  | nil => intro i; rfl
  | cons a as ih =>
      intro i
      rw [List.findIdx?_cons]
      rw [h a (List.mem_cons_self a as)]
      simp only [Bool.false_eq_true, if_false]
      exact ih (fun x hx => h x (List.mem_cons_of_mem a hx)) (i + 1)

/-- Helper: `findIdx?` finds the index of the first match (generalised over the
running start index). -/
lemma findIdx?_first_match {α : Type} (p : α → Bool) (l1 : List α) (x : α)
    (l2 : List α) (h1 : ∀ y ∈ l1, p y = false) (hx : p x = true) :
    ∀ i, (l1 ++ x :: l2).findIdx? p i = some (i + l1.length) := by
  induction l1 with
  | nil => intro i; simp [List.findIdx?_cons, hx]
  | cons a as ih =>
      intro i
      rw [List.cons_append, List.findIdx?_cons]
      rw [h1 a (List.mem_cons_self a as)]
      simp only [Bool.false_eq_true, if_false]
      rw [ih (fun y hy => h1 y (List.mem_cons_of_mem a hy)) (i + 1)]
      congr 1
      simp [List.length_cons]
      omega

/-- Setting the slot just past a prefix replaces the element there. -/
lemma set_append_length {α : Type} (l1 : List α) (x v : α) (l2 : List α) :
    (l1 ++ x :: l2).set l1.length v = l1 ++ v :: l2 := by
  induction l1 with
  | nil => rfl
  | cons a as ih => simp [List.set, ih]

/-- Claim C3: A successful `deleteAgente(id)` removes from the store's
`agentes` list exactly the entries whose id equals the given id: entries
with that id are gone, every other entry keeps its value and multiplicity,
and the surviving entries keep their relative order (the new list is a
sublist of the old). -/
theorem deleteAgente_removes_exactly (s : AgenteStoreState) (id : ℤ) :
    List.Sublist
      ((agenteInfecciosoStore.deleteAgente (ε := Unit) s id (.ok ())).1.agentes)
      s.agentes ∧
    (∀ a : AgenteInfeccioso, a.id = id →
      a ∉ (agenteInfecciosoStore.deleteAgente (ε := Unit) s id (.ok ())).1.agentes) ∧
    (∀ a : AgenteInfeccioso, a.id ≠ id →
      ((agenteInfecciosoStore.deleteAgente (ε := Unit) s id (.ok ())).1.agentes).count a
        = s.agentes.count a) := by
  have hred : (agenteInfecciosoStore.deleteAgente (ε := Unit) s id (.ok ())).1.agentes
      = s.agentes.filter (fun a => a.id != id) := rfl
  rw [hred]
  refine ⟨?_, ?_, ?_⟩
  · exact List.filter_sublist s.agentes
  · intro a ha hmem
    have := (List.mem_filter.mp hmem).2
    simp [ha] at this
  · intro a ha
    exact List.count_filter (by simp [ha])

/-- Claim C3 witness: Concrete run: deleting id 2 from a three-element store
removes exactly the entry with id 2. -/
theorem deleteAgente_removes_exactly_witness :
    (⟨2, "b", "BACTERIA", none, none⟩ : AgenteInfeccioso) ∉
      (agenteInfecciosoStore.deleteAgente (ε := Unit)
        ⟨[⟨1, "a", "VIRUS", none, none⟩, ⟨2, "b", "BACTERIA", none, none⟩,
          ⟨3, "c", "FUNGO", none, none⟩], false, none⟩ 2 (.ok ())).1.agentes ∧
    ((agenteInfecciosoStore.deleteAgente (ε := Unit)
        ⟨[⟨1, "a", "VIRUS", none, none⟩, ⟨2, "b", "BACTERIA", none, none⟩,
          ⟨3, "c", "FUNGO", none, none⟩], false, none⟩ 2 (.ok ())).1.agentes).count
      ⟨1, "a", "VIRUS", none, none⟩ = 1 :=
  ⟨(deleteAgente_removes_exactly
      ⟨[⟨1, "a", "VIRUS", none, none⟩, ⟨2, "b", "BACTERIA", none, none⟩,
        ⟨3, "c", "FUNGO", none, none⟩], false, none⟩ 2).2.1 _ (by decide),
    by
      have := (deleteAgente_removes_exactly
        ⟨[⟨1, "a", "VIRUS", none, none⟩, ⟨2, "b", "BACTERIA", none, none⟩,
          ⟨3, "c", "FUNGO", none, none⟩], false, none⟩ 2).2.2
        ⟨1, "a", "VIRUS", none, none⟩ (by decide)
      rw [this]
      decide⟩

/-- Claim C4: A successful `updateAgente(id, updates)` replaces the first
entry whose id equals the given id with the server-returned agent, leaving
all other entries unchanged; when no entry has that id the list is left
entirely unchanged, and in both cases the call returns the server's
agent. -/
theorem updateAgente_replaces_first (s : AgenteStoreState) (id : ℤ)
    (a : AgenteInfeccioso) :
    ((∀ x ∈ s.agentes, x.id ≠ id) →
      (agenteInfecciosoStore.updateAgente (ε := Unit) s id (.ok a)).1.agentes
          = s.agentes ∧
      (agenteInfecciosoStore.updateAgente (ε := Unit) s id (.ok a)).2 = .ok a) ∧
    (∀ l1 x l2, s.agentes = l1 ++ x :: l2 → (∀ y ∈ l1, y.id ≠ id) →
      x.id = id →
      (agenteInfecciosoStore.updateAgente (ε := Unit) s id (.ok a)).1.agentes
          = l1 ++ a :: l2 ∧
      (agenteInfecciosoStore.updateAgente (ε := Unit) s id (.ok a)).2 = .ok a) := by
  constructor
  · intro hnone
    have hfind : s.agentes.findIdx? (fun x => x.id == id) = none :=
      findIdx?_eq_none_of_all _ _
        (fun x hx => by
          simp only [beq_eq_false_iff_ne, ne_eq]
          exact hnone x hx) 0
    refine ⟨?_, rfl⟩
    have hred : (agenteInfecciosoStore.updateAgente (ε := Unit) s id (.ok a)).1.agentes
        = match s.agentes.findIdx? (fun x => x.id == id) with
          | some index => s.agentes.set index a
          | none => s.agentes := rfl
    rw [hred, hfind]
  · intro l1 x l2 hsplit hl1 hx
    have hfind : s.agentes.findIdx? (fun y => y.id == id) = some l1.length := by
      rw [hsplit]
      have := findIdx?_first_match (fun y : AgenteInfeccioso => y.id == id) l1 x l2
        (fun y hy => by
          simp only [beq_eq_false_iff_ne, ne_eq]
          exact hl1 y hy)
        (by simp [hx]) 0
      simpa using this
    refine ⟨?_, rfl⟩
    have hred : (agenteInfecciosoStore.updateAgente (ε := Unit) s id (.ok a)).1.agentes
        = match s.agentes.findIdx? (fun y => y.id == id) with
          | some index => s.agentes.set index a
          | none => s.agentes := rfl
    rw [hred, hfind]
    simp only [hsplit]
    exact set_append_length l1 x a l2

/-- Claim C4 witness: Concrete runs of both branches: updating id 2 replaces
the first matching entry and returns the server's agent; updating an absent
id 9 leaves the list unchanged and still returns the server's agent. -/
theorem updateAgente_replaces_first_witness :
    ((agenteInfecciosoStore.updateAgente (ε := Unit)
        ⟨[⟨1, "a", "VIRUS", none, none⟩, ⟨2, "b", "BACTERIA", none, none⟩],
          false, none⟩ 2 (.ok ⟨2, "b2", "VIRUS", none, none⟩)).1.agentes
      = [⟨1, "a", "VIRUS", none, none⟩, ⟨2, "b2", "VIRUS", none, none⟩] ∧
      (agenteInfecciosoStore.updateAgente (ε := Unit)
        ⟨[⟨1, "a", "VIRUS", none, none⟩, ⟨2, "b", "BACTERIA", none, none⟩],
          false, none⟩ 2 (.ok ⟨2, "b2", "VIRUS", none, none⟩)).2
      = .ok ⟨2, "b2", "VIRUS", none, none⟩) ∧
    ((agenteInfecciosoStore.updateAgente (ε := Unit)
        ⟨[⟨1, "a", "VIRUS", none, none⟩], false, none⟩ 9
        (.ok ⟨9, "n", "VIRUS", none, none⟩)).1.agentes
      = [⟨1, "a", "VIRUS", none, none⟩] ∧
      (agenteInfecciosoStore.updateAgente (ε := Unit)
        ⟨[⟨1, "a", "VIRUS", none, none⟩], false, none⟩ 9
        (.ok ⟨9, "n", "VIRUS", none, none⟩)).2
      = .ok ⟨9, "n", "VIRUS", none, none⟩) :=
  ⟨(updateAgente_replaces_first
      ⟨[⟨1, "a", "VIRUS", none, none⟩, ⟨2, "b", "BACTERIA", none, none⟩],
        false, none⟩ 2 ⟨2, "b2", "VIRUS", none, none⟩).2
      [⟨1, "a", "VIRUS", none, none⟩] ⟨2, "b", "BACTERIA", none, none⟩ []
      rfl (by decide) rfl,
    (updateAgente_replaces_first
      ⟨[⟨1, "a", "VIRUS", none, none⟩], false, none⟩ 9
      ⟨9, "n", "VIRUS", none, none⟩).1 (by decide)⟩

/-- Claim C5: `createAgente` on success appends the server-returned agent to
the end of `agentes` (so `totalAgentes` grows by exactly one) and on
failure leaves `agentes` unchanged, sets the error message, re-throws the
exception, and in both cases `loading` is `false` after completion. -/
theorem createAgente_spec {ε : Type} (s : AgenteStoreState)
    (a : AgenteInfeccioso) (e : ε) :
    (agenteInfecciosoStore.createAgente (ε := ε) s (.ok a)).1.agentes
        = s.agentes ++ [a] ∧
    agenteInfecciosoStore.totalAgentes (agenteInfecciosoStore.createAgente (ε := ε) s (.ok a)).1
        = agenteInfecciosoStore.totalAgentes s + 1 ∧
    (agenteInfecciosoStore.createAgente (ε := ε) s (.ok a)).2 = .ok a ∧
    (agenteInfecciosoStore.createAgente (ε := ε) s (.ok a)).1.loading = false ∧
    (agenteInfecciosoStore.createAgente s (.error e)).1.agentes = s.agentes ∧
    (agenteInfecciosoStore.createAgente s (.error e)).1.error
        = some "Failed to create infectious agent" ∧
    (agenteInfecciosoStore.createAgente s (.error e)).2 = .error e ∧
    (agenteInfecciosoStore.createAgente s (.error e)).1.loading = false := by
  refine ⟨rfl, ?_, rfl, rfl, rfl, rfl, rfl, rfl⟩
  simp [agenteInfecciosoStore.createAgente, agenteInfecciosoStore.totalAgentes]

/-- Claim C9 witness: Concrete run: a score of 80 is tagged `danger`, and the
theorem's characterisation evaluates accordingly. -/
theorem getASCQSeverity_partition_witness :
    (getASCQSeverity 80 = "danger" ↔ (75 : ℚ) ≤ 80) ∧ getASCQSeverity 80 = "danger" :=
  ⟨(getASCQSeverity_partition 80).1, (getASCQSeverity_partition 80).1.mpr (by norm_num)⟩

/-- Claim C10 witness: Concrete run on a two-issue list: the critical issue
(70% missing) is not among the warning issues, and the concatenation of the
four selections counts each issue exactly as the input list does. -/
theorem qualityIssues_partition_witness :
    ((⟨"destino", 70, 7⟩ : QualityIssue) ∉
      getWarningIssues [⟨"destino", 70, 7⟩, ⟨"sexo", 5, 1⟩]) ∧
    (getCriticalIssues [(⟨"destino", 70, 7⟩ : QualityIssue), ⟨"sexo", 5, 1⟩] ++
      getWarningIssues [⟨"destino", 70, 7⟩, ⟨"sexo", 5, 1⟩] ++
      getMinorIssues [⟨"destino", 70, 7⟩, ⟨"sexo", 5, 1⟩] ++
      getGoodQuality [⟨"destino", 70, 7⟩, ⟨"sexo", 5, 1⟩]).count ⟨"destino", 70, 7⟩
      = ([⟨"destino", 70, 7⟩, ⟨"sexo", 5, 1⟩] : List QualityIssue).count ⟨"destino", 70, 7⟩ :=
  ⟨(qualityIssues_partition [⟨"destino", 70, 7⟩, ⟨"sexo", 5, 1⟩] ⟨"destino", 70, 7⟩).1
      (by decide),
    (qualityIssues_partition [⟨"destino", 70, 7⟩, ⟨"sexo", 5, 1⟩] ⟨"destino", 70, 7⟩).2.2.2.2.2.2⟩

/-! ## `DemographicsAnalysis.vue`: the age-range grid -/

/-- The slice of the `DemographicAnalysis` interface used by the age-range
grid of `DemographicsAnalysis.vue`: the optional `age_distribution` object
mapping an age-range label to a count (object entries embedded as a list in
key order). -/
structure DemographicAnalysis where
  age_distribution : Option (List (String × ℚ))
  deriving DecidableEq, Repr

namespace DemographicsAnalysis

/-- Function `getTotalAgeDistribution`: returns 1 when `age_distribution` is absent,
otherwise `Object.values(age_distribution).reduce((sum, count) => sum + count, 0)`. -/
def getTotalAgeDistribution (demographics : DemographicAnalysis) : ℚ :=
  match demographics.age_distribution with
  | none => 1
  | some d => (d.map Prod.snd).foldl (fun sum count => sum + count) 0

/-- JavaScript `Number.prototype.toFixed(1)`: rounding to one decimal place. -/
def toFixed1 (q : ℚ) : ℚ := (round (q * 10) : ℤ) / 10

/-- The percentage the age-range grid displays for a bucket with the given
count: `((count / getTotalAgeDistribution()) * 100).toFixed(1)`. -/
def displayedAgePercentage (demographics : DemographicAnalysis) (count : ℚ) : ℚ :=
  toFixed1 (count / getTotalAgeDistribution demographics * 100)

end DemographicsAnalysis

/-- Left fold of addition over the rationals is summation. -/
lemma foldl_add_eq_sum (l : List ℚ) :
    ∀ init : ℚ, l.foldl (fun sum count => sum + count) init = init + l.sum := by
  induction l with
  | nil => intro init; simp
  | cons a as ih =>
      intro init
      rw [List.foldl_cons, ih, List.sum_cons]
      ring

/-- Claim C6: For a present `age_distribution`, the displayed percentage of
each bucket is 100 times its count divided by the total of all counts,
rounded to one decimal place, and the exact (pre-rounding) percentages of
all buckets sum to 100 whenever the total is nonzero; when
`age_distribution` is absent the divisor used is 1. -/
theorem displayedAgePercentage_spec (demographics : DemographicAnalysis) :
    (∀ d, demographics.age_distribution = some d →
      (∀ bucket ∈ d,
        DemographicsAnalysis.displayedAgePercentage demographics bucket.2
          = DemographicsAnalysis.toFixed1 (100 * bucket.2 / (d.map Prod.snd).sum)) ∧
      ((d.map Prod.snd).sum ≠ 0 →
        (d.map (fun bucket => 100 * bucket.2 / (d.map Prod.snd).sum)).sum = 100)) ∧
    (demographics.age_distribution = none →
      DemographicsAnalysis.getTotalAgeDistribution demographics = 1) := by
  constructor
  · intro d hd
    have htot : DemographicsAnalysis.getTotalAgeDistribution demographics
        = (d.map Prod.snd).sum := by
      unfold DemographicsAnalysis.getTotalAgeDistribution
      rw [hd]
      show (d.map Prod.snd).foldl (fun sum count => sum + count) 0 = (d.map Prod.snd).sum
      rw [foldl_add_eq_sum, zero_add]
    constructor
    · intro bucket _
      unfold DemographicsAnalysis.displayedAgePercentage
      rw [htot]
      congr 1
      ring
    · intro hne
      have : (d.map (fun bucket => 100 * bucket.2 / (d.map Prod.snd).sum)).sum
          = (d.map (fun bucket => bucket.2 * (100 / (d.map Prod.snd).sum))).sum := by
        congr 1
        apply List.map_congr_left
        intro b _
        field_simp
        ring
      rw [this, List.sum_map_mul_right]
      field_simp
  · intro hnone
    unfold DemographicsAnalysis.getTotalAgeDistribution
    rw [hnone]

/-- Claim C6 witness: Concrete run on a two-bucket distribution (counts 1 and
3): the bucket with count 1 displays 25.0%, the exact percentages sum to
100, and an absent distribution yields divisor 1. -/
theorem displayedAgePercentage_spec_witness :
    DemographicsAnalysis.displayedAgePercentage ⟨some [("0-17", 1), ("18-65", 3)]⟩ 1
      = DemographicsAnalysis.toFixed1
          (100 * 1 / (([("0-17", (1 : ℚ)), ("18-65", 3)].map Prod.snd).sum)) ∧
    (([("0-17", (1 : ℚ)), ("18-65", 3)].map
        (fun bucket => 100 * bucket.2 /
          (([("0-17", (1 : ℚ)), ("18-65", 3)].map Prod.snd).sum))).sum = 100) ∧
    DemographicsAnalysis.getTotalAgeDistribution ⟨none⟩ = 1 :=
  ⟨((displayedAgePercentage_spec ⟨some [("0-17", 1), ("18-65", 3)]⟩).1
      [("0-17", 1), ("18-65", 3)] rfl).1 ("0-17", 1) (by decide),
    ((displayedAgePercentage_spec ⟨some [("0-17", 1), ("18-65", 3)]⟩).1
      [("0-17", 1), ("18-65", 3)] rfl).2 (by norm_num),
    (displayedAgePercentage_spec ⟨none⟩).2 rfl⟩

/-! ## The axios service layer (services/api.ts)

Each service method awaits axios calls against the fixed base URL and
returns `response.data` (nothing for delete).  The embedding records the
trace of HTTP requests a method issues, and parameterises over the
transport `http`, which gives the response body of each request.  A method
is one `(trace, value)` pair: the requests performed, in order, and the
value the method resolves with. -/

/-- The HTTP verbs used by the service layer. -/
inductive HttpMethod where
  | get
  | post
  | patch
  | put
  | delete
  deriving DecidableEq, Repr

/-- One HTTP request: verb, URL path, optional JSON body. -/
structure HttpRequest where
  method : HttpMethod
  url : String
  body : Option JSVal
  deriving DecidableEq, Repr

namespace agenteInfecciosoService

/-- Method `agenteInfecciosoService.getAll`: one GET of the collection, returning
`response.data`. -/
def getAll (http : HttpRequest → JSVal) : List HttpRequest × JSVal :=
  let req : HttpRequest := ⟨.get, "/agentes_infecciosos", none⟩
  ([req], http req)

/-- Method `agenteInfecciosoService.getById`. -/
def getById (http : HttpRequest → JSVal) (id : ℤ) : List HttpRequest × JSVal :=
  let req : HttpRequest := ⟨.get, "/agentes_infecciosos/" ++ toString id, none⟩
  ([req], http req)

/-- Method `agenteInfecciosoService.create`: one POST with the payload as body. -/
def create (http : HttpRequest → JSVal) (agente : JSVal) : List HttpRequest × JSVal :=
  let req : HttpRequest := ⟨.post, "/agentes_infecciosos", some agente⟩
  ([req], http req)

/-- Method `agenteInfecciosoService.update`: one PATCH with the payload as body. -/
def update (http : HttpRequest → JSVal) (id : ℤ) (agente : JSVal) :
    List HttpRequest × JSVal :=
  let req : HttpRequest := ⟨.patch, "/agentes_infecciosos/" ++ toString id, some agente⟩
  ([req], http req)

/-- Method `agenteInfecciosoService.delete`: one DELETE; the response body is
discarded and the method resolves with `undefined`. -/
def delete (http : HttpRequest → JSVal) (id : ℤ) : List HttpRequest × JSVal :=
  let req : HttpRequest := ⟨.delete, "/agentes_infecciosos/" ++ toString id, none⟩
  let _ := http req
  ([req], JSVal.undefined)

end agenteInfecciosoService

namespace doenteService

/-- Method `doenteService.getAll`. -/
def getAll (http : HttpRequest → JSVal) : List HttpRequest × JSVal :=
  let req : HttpRequest := ⟨.get, "/doentes", none⟩
  ([req], http req)

/-- Method `doenteService.getById`. -/
def getById (http : HttpRequest → JSVal) (id : ℤ) : List HttpRequest × JSVal :=
  let req : HttpRequest := ⟨.get, "/doentes/" ++ toString id, none⟩
  ([req], http req)

/-- Method `doenteService.getByNumeroProcesso`. -/
def getByNumeroProcesso (http : HttpRequest → JSVal) (numeroProcesso : ℤ) :
    List HttpRequest × JSVal :=
  let req : HttpRequest := ⟨.get, "/doentes/numero_processo/" ++ toString numeroProcesso, none⟩
  ([req], http req)

/-- Method `doenteService.create`. -/
def create (http : HttpRequest → JSVal) (doente : JSVal) : List HttpRequest × JSVal :=
  let req : HttpRequest := ⟨.post, "/doentes", some doente⟩
  ([req], http req)

/-- Method `doenteService.update`: a PUT (full update). -/
def update (http : HttpRequest → JSVal) (id : ℤ) (doente : JSVal) :
    List HttpRequest × JSVal :=
  let req : HttpRequest := ⟨.put, "/doentes/" ++ toString id, some doente⟩
  ([req], http req)

/-- Method `doenteService.partialUpdate`: a PATCH. -/
def partialUpdate (http : HttpRequest → JSVal) (id : ℤ) (doente : JSVal) :
    List HttpRequest × JSVal :=
  let req : HttpRequest := ⟨.patch, "/doentes/" ++ toString id, some doente⟩
  ([req], http req)

/-- Method `doenteService.delete`. -/
def delete (http : HttpRequest → JSVal) (id : ℤ) : List HttpRequest × JSVal :=
  let req : HttpRequest := ⟨.delete, "/doentes/" ++ toString id, none⟩
  let _ := http req
  ([req], JSVal.undefined)

end doenteService

/-- Claim C7: Every method of `agenteInfecciosoService` and `doenteService`
performs exactly one HTTP request, to its fixed endpoint, and returns the
response body unchanged (`undefined` for the deletes), with no retries and
no transformation, for every transport and every argument. -/
theorem services_single_request (http : HttpRequest → JSVal) (id : ℤ)
    (numeroProcesso : ℤ) (payload : JSVal) :
    agenteInfecciosoService.getAll http
      = ([⟨.get, "/agentes_infecciosos", none⟩], http ⟨.get, "/agentes_infecciosos", none⟩) ∧
    agenteInfecciosoService.getById http id
      = ([⟨.get, "/agentes_infecciosos/" ++ toString id, none⟩],
          http ⟨.get, "/agentes_infecciosos/" ++ toString id, none⟩) ∧
    agenteInfecciosoService.create http payload
      = ([⟨.post, "/agentes_infecciosos", some payload⟩],
          http ⟨.post, "/agentes_infecciosos", some payload⟩) ∧
    agenteInfecciosoService.update http id payload
      = ([⟨.patch, "/agentes_infecciosos/" ++ toString id, some payload⟩],
          http ⟨.patch, "/agentes_infecciosos/" ++ toString id, some payload⟩) ∧
    agenteInfecciosoService.delete http id
      = ([⟨.delete, "/agentes_infecciosos/" ++ toString id, none⟩], JSVal.undefined) ∧
    doenteService.getAll http
      = ([⟨.get, "/doentes", none⟩], http ⟨.get, "/doentes", none⟩) ∧
    doenteService.getById http id
      = ([⟨.get, "/doentes/" ++ toString id, none⟩],
          http ⟨.get, "/doentes/" ++ toString id, none⟩) ∧
    doenteService.getByNumeroProcesso http numeroProcesso
      = ([⟨.get, "/doentes/numero_processo/" ++ toString numeroProcesso, none⟩],
          http ⟨.get, "/doentes/numero_processo/" ++ toString numeroProcesso, none⟩) ∧
    doenteService.create http payload
      = ([⟨.post, "/doentes", some payload⟩], http ⟨.post, "/doentes", some payload⟩) ∧
    doenteService.update http id payload
      = ([⟨.put, "/doentes/" ++ toString id, some payload⟩],
          http ⟨.put, "/doentes/" ++ toString id, some payload⟩) ∧
    doenteService.partialUpdate http id payload
      = ([⟨.patch, "/doentes/" ++ toString id, some payload⟩],
          http ⟨.patch, "/doentes/" ++ toString id, some payload⟩) ∧
    doenteService.delete http id
      = ([⟨.delete, "/doentes/" ++ toString id, none⟩], JSVal.undefined) := by
  refine ⟨rfl, rfl, rfl, rfl, rfl, rfl, rfl, rfl, rfl, rfl, rfl, rfl⟩

/-! ## The analysis subsystem: `BDDoentesAnalyzer` and its dashboard consumers -/

/-- The five summary families of the analysis subsystem. -/
inductive AnalysisFamily where
  | demographic
  | temporal
  | severity
  | etiology
  | outcome
  deriving DecidableEq, Repr

/-- Modelled from the spec: the Python module `src/analysis.py` holding the
`BDDoentesAnalyzer` class is absent from the source snapshot (only its
documentation, `src/ANALYSIS_README.md`, and its frontend consumers are
present).  Per that README, the pandas-based class reads the
`BD_doentes_clean.csv` extract and computes `get_demographic_analysis`,
`get_temporal_analysis`, `get_burn_severity_analysis`,
`get_etiology_analysis` and `get_outcome_analysis`: one descriptive summary
per family, served on the `/analysis/...` endpoints. -/
def BDDoentesAnalyzerSummaries : List AnalysisFamily :=
  [.demographic, .temporal, .severity, .etiology, .outcome]

/-- The analysis components of the dashboard frontend
(`src/frontend/src/components/analysis/`) with the summary family each
consumes through its props: `DemographicsAnalysis.vue` takes
`demographics : DemographicAnalysis`, `TemporalAnalysis.vue` takes
`temporal : TemporalAnalysis`, the burn-severity component declared
alongside them takes `burnSeverity : BurnSeverityAnalysis`,
`EtiologyAnalysis.vue` takes `etiology : EtiologyAnalysis`, and
`OutcomesAnalysis.vue` takes `outcomes : OutcomeAnalysis`. -/
def dashboardAnalysisComponents : List (String × AnalysisFamily) :=
  [("DemographicsAnalysis", .demographic),
   ("TemporalAnalysis", .temporal),
   ("BurnSeverityAnalysis", .severity),
   ("EtiologyAnalysis", .etiology),
   ("OutcomesAnalysis", .outcome)]

/-- Claim C1: Each of the five summary families — demographic, temporal,
severity, etiology, outcome — is produced by the `BDDoentesAnalyzer`
module and consumed by one of the dashboard's analysis components. -/
theorem analyzer_families_produced_and_consumed (f : AnalysisFamily) :
    f ∈ BDDoentesAnalyzerSummaries ∧
    ∃ c ∈ dashboardAnalysisComponents, c.2 = f := by
  cases f <;> exact ⟨by decide, by decide⟩

/-! ## The internamento store normalizers (stores/internamento.ts)

`normalizeInternamentoUpdate` first clones its argument
(`const u = { ...updates }`) and then normalizes each present field in
place on the clone.  A field of the `InternamentoUpdate` object is embedded
as `Option JSVal`: `none` when the key is absent, `some v` when present
with runtime value `v` (`'field' in u` distinguishes the two, and
assignment keeps a key present).  JavaScript's `Number(string)` conversion
is a parameter `toNumber`, with `none` standing for `NaN`. -/

/-- JavaScript `String.prototype.toLowerCase` on the ASCII letters. -/
def charToLower (c : Char) : Char :=
  if 65 ≤ c.toNat ∧ c.toNat ≤ 90 then Char.ofNat (c.toNat + 32) else c

/-- JavaScript `String.prototype.toUpperCase` on the ASCII letters. -/
def charToUpper (c : Char) : Char :=
  if 97 ≤ c.toNat ∧ c.toNat ≤ 122 then Char.ofNat (c.toNat - 32) else c

/-- JavaScript `val.toLowerCase()`. -/
def strToLower (s : String) : String := ⟨s.data.map charToLower⟩

/-- JavaScript `val.toUpperCase()`. -/
def strToUpper (s : String) : String := ⟨s.data.map charToUpper⟩

/-- Normalizer `normalizeDate`: `undefined` passes through, `''` and `null` become
`null`, strings pass through, anything else becomes `undefined`. -/
def normalizeDate : JSVal → JSVal
  | .undefined => .undefined
  | .null => .null
  | .str s => if s = "" then .null else .str s
  | _ => .undefined

/-- Normalizer `normalizeNumber`: `undefined` passes through, `''` and `null` become
`null`, numbers pass through, strings go through `Number` with `NaN`
becoming `null`, anything else becomes `undefined`. -/
def normalizeNumber (toNumber : String → Option ℚ) : JSVal → JSVal
  | .undefined => .undefined
  | .null => .null
  | .num n => .num n
  | .str s =>
      if s = "" then .null
      else
        match toNumber s with
        | none => .null
        | some n => .num n
  | _ => .undefined

/-- Normalizer `normalizeBoolean`: `undefined` passes through, `''` and `null` become
`null`, booleans pass through, the strings `'true'`/`'false'`
(case-insensitively) become the booleans and other strings `null`,
anything else becomes `undefined`. -/
def normalizeBoolean : JSVal → JSVal
  | .undefined => .undefined
  | .null => .null
  | .bool b => .bool b
  | .str s =>
      if s = "" then .null
      else
        let lower := strToLower s
        if lower = "true" then .bool true
        else if lower = "false" then .bool false
        else .null
  | _ => .undefined

/-- Normalizer `normalizeEnum`: `undefined` passes through, `''` and `null` become
`null`, strings are upper-cased, anything else becomes `undefined`. -/
def normalizeEnum : JSVal → JSVal
  | .undefined => .undefined
  | .null => .null
  | .str s => if s = "" then .null else .str (strToUpper s)
  | _ => .undefined

/-- The `InternamentoUpdate` interface of `services/api.ts`: every field
optional.  `none` embeds an absent key, `some v` a present key with runtime
value `v`. -/
structure InternamentoUpdate where
  numero_internamento : Option JSVal := none
  doente_id : Option JSVal := none
  data_entrada : Option JSVal := none
  data_alta : Option JSVal := none
  data_queimadura : Option JSVal := none
  origem_entrada : Option JSVal := none
  destino_alta : Option JSVal := none
  ASCQ_total : Option JSVal := none
  lesao_inalatoria : Option JSVal := none
  mecanismo_queimadura : Option JSVal := none
  agente_queimadura : Option JSVal := none
  tipo_acidente : Option JSVal := none
  incendio_florestal : Option JSVal := none
  contexto_violento : Option JSVal := none
  suicidio_tentativa : Option JSVal := none
  fogueira_queda : Option JSVal := none
  lareira_queda : Option JSVal := none
  escarotomias_entrada : Option JSVal := none
  intubacao_OT : Option JSVal := none
  VMI_dias : Option JSVal := none
  VNI : Option JSVal := none
  deriving Repr

/-- Function `normalizeInternamentoUpdate`: clone the argument, then for each key
present on the clone overwrite it with its normalized value.  The source
assigns the fields sequentially (dates, then numbers, then booleans, then
enums); every field is assigned at most once and the assignments are
independent, so the net effect on the clone is this record. -/
def normalizeInternamentoUpdate (toNumber : String → Option ℚ)
    (u : InternamentoUpdate) : InternamentoUpdate where
  data_entrada := u.data_entrada.map normalizeDate
  data_alta := u.data_alta.map normalizeDate
  data_queimadura := u.data_queimadura.map normalizeDate
  numero_internamento := u.numero_internamento.map (normalizeNumber toNumber)
  doente_id := u.doente_id.map (normalizeNumber toNumber)
  origem_entrada := u.origem_entrada.map (normalizeNumber toNumber)
  destino_alta := u.destino_alta.map (normalizeNumber toNumber)
  ASCQ_total := u.ASCQ_total.map (normalizeNumber toNumber)
  mecanismo_queimadura := u.mecanismo_queimadura.map (normalizeNumber toNumber)
  agente_queimadura := u.agente_queimadura.map (normalizeNumber toNumber)
  tipo_acidente := u.tipo_acidente.map (normalizeNumber toNumber)
  VMI_dias := u.VMI_dias.map (normalizeNumber toNumber)
  incendio_florestal := u.incendio_florestal.map normalizeBoolean
  suicidio_tentativa := u.suicidio_tentativa.map normalizeBoolean
  fogueira_queda := u.fogueira_queda.map normalizeBoolean
  lareira_queda := u.lareira_queda.map normalizeBoolean
  escarotomias_entrada := u.escarotomias_entrada.map normalizeBoolean
  VNI := u.VNI.map normalizeBoolean
  lesao_inalatoria := u.lesao_inalatoria.map normalizeEnum
  contexto_violento := u.contexto_violento.map normalizeEnum
  intubacao_OT := u.intubacao_OT.map normalizeEnum

/-- A call of `normalizeInternamentoUpdate` as the caller sees it: because
the function's first step is the clone `const u = { ...updates }` and every
subsequent assignment targets `u`, the caller's object after the call is
paired with the returned object. -/
def normalizeInternamentoUpdateCall (toNumber : String → Option ℚ)
    (updates : InternamentoUpdate) : InternamentoUpdate × InternamentoUpdate :=
  (updates, normalizeInternamentoUpdate toNumber updates)

/-- ASCII upper-casing is idempotent on characters: upper-casing a
lower-case letter leaves the letter range. -/
lemma charToUpper_idem (c : Char) : charToUpper (charToUpper c) = charToUpper c := by
  unfold charToUpper
  by_cases h : 97 ≤ c.toNat ∧ c.toNat ≤ 122
  · rw [if_pos h]
    have hn : (Char.ofNat (c.toNat - 32)).toNat = c.toNat - 32 := by
      have hv : Nat.isValidChar (c.toNat - 32) := Or.inl (by omega)
      rw [Char.ofNat, dif_pos hv]
      rfl
    rw [hn, if_neg (by omega)]
  · rw [if_neg h, if_neg h]

/-- Upper-casing `toUpperCase` is idempotent on strings. -/
lemma strToUpper_idem (s : String) : strToUpper (strToUpper s) = strToUpper s := by
  unfold strToUpper
  congr 1
  show (s.data.map charToUpper).map charToUpper = s.data.map charToUpper
  rw [List.map_map]
  apply List.map_congr_left
  intro c _
  exact charToUpper_idem c

/-- Upper-casing `toUpperCase` preserves emptiness. -/
lemma strToUpper_eq_empty_iff (s : String) : strToUpper s = "" ↔ s = "" := by
  obtain ⟨l⟩ := s
  constructor
  · intro h
    have hd : l.map charToUpper = [] := congrArg String.data h
    have hl : l = [] := List.map_eq_nil_iff.mp hd
    rw [hl]
  · intro h
    rw [h]
    rfl

/-- Normalizer `normalizeDate` maps its own outputs to themselves. -/
lemma normalizeDate_idem (v : JSVal) :
    normalizeDate (normalizeDate v) = normalizeDate v := by
  cases v with
  | str s =>
      by_cases h : s = ""
      · simp [normalizeDate, h]
      · simp [normalizeDate, h]
  | null => rfl
  | undefined => rfl
  | num q => rfl
  | bool b => rfl
  | other => rfl

/-- Normalizer `normalizeNumber` maps its own outputs to themselves, whatever the
`Number` conversion does on strings (its outputs are never strings). -/
lemma normalizeNumber_idem (toNumber : String → Option ℚ) (v : JSVal) :
    normalizeNumber toNumber (normalizeNumber toNumber v)
      = normalizeNumber toNumber v := by
  cases v with
  | str s =>
      by_cases h : s = ""
      · simp [normalizeNumber, h]
      · simp only [normalizeNumber, if_neg h]
        cases toNumber s <;> rfl
  | null => rfl
  | undefined => rfl
  | num q => rfl
  | bool b => rfl
  | other => rfl

/-- Normalizer `normalizeBoolean` maps its own outputs to themselves (its outputs are
never strings). -/
lemma normalizeBoolean_idem (v : JSVal) :
    normalizeBoolean (normalizeBoolean v) = normalizeBoolean v := by
  cases v with
  | str s =>
      by_cases h : s = ""
      · simp [normalizeBoolean, h]
      · simp only [normalizeBoolean, if_neg h]
        by_cases ht : strToLower s = "true"
        · simp [ht]
        · by_cases hf : strToLower s = "false"
          · simp [ht, hf]
          · simp [ht, hf]
  | null => rfl
  | undefined => rfl
  | num q => rfl
  | bool b => rfl
  | other => rfl

/-- Normalizer `normalizeEnum` maps its own outputs to themselves: upper-casing is
idempotent and preserves non-emptiness. -/
lemma normalizeEnum_idem (v : JSVal) :
    normalizeEnum (normalizeEnum v) = normalizeEnum v := by
  cases v with
  | str s =>
      by_cases h : s = ""
      · simp [normalizeEnum, h]
      · have hne : strToUpper s ≠ "" := fun hc =>
          h ((strToUpper_eq_empty_iff s).mp hc)
        simp [normalizeEnum, h, hne, strToUpper_idem]
  | null => rfl
  | undefined => rfl
  | num q => rfl
  | bool b => rfl
  | other => rfl

/-- Mapping an idempotent normalizer over an optional field twice is the
same as mapping it once. -/
lemma option_map_idem (g : JSVal → JSVal) (hg : ∀ v, g (g v) = g v)
    (x : Option JSVal) : (x.map g).map g = x.map g := by
  cases x with
  | none => rfl
  | some v => simp [hg v]

/-- Claim C8: `normalizeInternamentoUpdate` never mutates its argument (the
caller's object after the call equals the object passed in, thanks to the
`{ ...updates }` clone) and is idempotent: normalizing twice equals
normalizing once, and each per-field normalizer maps its own outputs to
themselves — for every behaviour of JavaScript's `Number` conversion. -/
theorem normalizeInternamentoUpdate_pure_idem (toNumber : String → Option ℚ)
    (u : InternamentoUpdate) :
    (normalizeInternamentoUpdateCall toNumber u).1 = u ∧
    normalizeInternamentoUpdate toNumber (normalizeInternamentoUpdate toNumber u)
      = normalizeInternamentoUpdate toNumber u ∧
    (∀ v, normalizeDate (normalizeDate v) = normalizeDate v) ∧
    (∀ v, normalizeNumber toNumber (normalizeNumber toNumber v)
      = normalizeNumber toNumber v) ∧
    (∀ v, normalizeBoolean (normalizeBoolean v) = normalizeBoolean v) ∧
    (∀ v, normalizeEnum (normalizeEnum v) = normalizeEnum v) := by
  refine ⟨rfl, ?_, normalizeDate_idem, normalizeNumber_idem toNumber,
    normalizeBoolean_idem, normalizeEnum_idem⟩
  unfold normalizeInternamentoUpdate
  congr 1 <;>
    first
      | exact option_map_idem _ normalizeDate_idem _
      | exact option_map_idem _ (normalizeNumber_idem toNumber) _
      | exact option_map_idem _ normalizeBoolean_idem _
      | exact option_map_idem _ normalizeEnum_idem _
